import Mathlib

/-!
Verification of the OpenBB charting backend (`backend.py`) and the
financial-ratios standard model (`financial_ratios.py`) against their
natural-language specification.

The Python code is shallowly embedded: stateful methods become explicit
state-passing functions, the filesystem becomes a boolean oracle, and the
external PyWry renderer's probe becomes an outcome parameter.  Python float
arithmetic (the literals `0.2` and `9.7` and the products taken with them)
is embedded exactly: every float value is the fraction it denotes, and
every conversion or arithmetic result is rounded to IEEE-754 binary64 by
an executable round-to-nearest-ties-to-even function (`fpRound`);
`int(...)` on the non-negative floats in scope is the floor of the
fraction (`fpTrunc`).
-/

namespace OpenBB

/-! ## Export Watcher (`Backend.process_image`)

`process_image` resolves the export path and then runs

    checks = 0
    while not img_path.exists():
        await asyncio.sleep(0.2)
        checks += 1
        if checks > 50:
            break
    if img_path.exists(): ...open it...

The filesystem is the oracle `exists_at : Nat → Bool`, where `exists_at k`
is the value of `img_path.exists()` after `k` sleeps have elapsed.  The
loop is embedded with a fuel argument; fuel `maxPolls + 1` is enough
because `checks` grows by one per iteration and the loop breaks as soon as
`checks > maxPolls`.  The function returns the outcome of the final
existence test together with the number of sleep iterations performed. -/

inductive ExportResult where
  | Found
  | TimedOut
deriving DecidableEq, Repr

/-- The polling loop of `process_image`: `checks` counts sleeps so far;
returns the final value of `checks` when the loop exits. -/
def pollLoopAux (exists_at : Nat → Bool) (maxPolls : Nat) : Nat → Nat → Nat
  | 0, checks => checks
  | fuel + 1, checks =>
    if exists_at checks then checks
    else if checks + 1 > maxPolls then checks + 1
    else pollLoopAux exists_at maxPolls fuel (checks + 1)

/-- Embedding of `Backend.process_image` with the source's literal bound `50`:
the loop, then the final `img_path.exists()` test deciding whether the
export was found or the wait timed out (no exception is raised either
way).  Second component: how many poll/sleep iterations ran. -/
def process_image (exists_at : Nat → Bool) : ExportResult × Nat :=
  let final := pollLoopAux exists_at 50 51 0
  (if exists_at final then ExportResult.Found else ExportResult.TimedOut, final)

/-! ## Title markup stripping (`re.sub(r"<[^>]*>", "", ...)`)

The regex `<[^>]*>` matches, at a `<`, everything up to and including the
first following `>` (`[^>]*` also matches inner `<`).  A `<` with no later
`>` matches nowhere, and then no later position can match either.
`stripTagsFuel` embeds `re.sub`'s left-to-right non-overlapping
replacement; fuel `l.length` suffices since each step consumes at least
one character. -/

/-- The characters after the first `>` of the list, if any. -/
def findGt : List Char → Option (List Char)
  | [] => none
  | c :: r => if c = '>' then some r else findGt r

def stripTagsFuel : Nat → List Char → List Char
  | 0, l => l
  | fuel + 1, [] => []
  | fuel + 1, c :: r =>
    if c = '<' then
      match findGt r with
      | some r' => stripTagsFuel fuel r'
      | none => c :: stripTagsFuel fuel r
    else c :: stripTagsFuel fuel r

/-- The stripped string `re.sub(r"<[^>]*>", "", s)`. -/
def stripTags (s : String) : String := String.mk (stripTagsFuel s.data.length s.data)

/-- Whether the character list contains a `<[^>]*>` match, i.e. a `<`
followed (anywhere later) by a `>`. -/
def hasTag : List Char → Bool
  | [] => false
  | c :: r => (c = '<' && r.contains '>') || hasTag r

/-! ## `Backend.send_figure`: figure mutation before serialization

`send_figure` mutates the figure in place and then serializes it:

    title = "Interactive Chart"
    fig.layout.title.text = re.sub(
        r"<[^>]*>", "", fig.layout.title.text if fig.layout.title.text else title)
    fig.layout.height += 69
    ...
    json_data = json.loads(fig.to_json())

A figure is embedded by the two layout fields this code touches; the
serialized `json_data` layout is exactly the mutated figure (`to_json`
runs after both mutations). -/

structure GoFigure where
  title_text : String
  height : Nat
deriving DecidableEq, Repr

/-- The in-place mutation `send_figure` applies to `fig` before calling
`fig.to_json()`: Python's `text if text else title` falls back to the
default exactly when the input title is empty. -/
def send_figure_fig (fig : GoFigure) : GoFigure :=
  { title_text :=
      stripTags (if fig.title_text = "" then "Interactive Chart" else fig.title_text),
    height := fig.height + 69 }

/-! ## IEEE-754 binary64 arithmetic, exactly

CPython evaluates `0.2`, `9.7`, `int * float` and `float + float` in
IEEE-754 binary64 (double).  Every double is an exactly representable
rational; here a non-negative value is carried as an exact fraction — a
`Nat × Nat` pair (numerator, positive denominator) — and every conversion
or operation result is re-rounded by `fpRound`: round to nearest, ties to
even, 53-bit significand, unbounded exponent (no value in scope
approaches overflow or subnormals, where unbounded-exponent rounding
coincides with IEEE).  Everything is natural-number arithmetic, so
concrete instances evaluate inside the kernel. -/

/-- Fuel-driven floor of log₂ (`natLog2Aux n n` is floor(log₂ n);
fuel `n` suffices since the argument at least halves each step). -/
def natLog2Aux : Nat → Nat → Nat
  | 0, _ => 0
  | fuel + 1, n => if n ≤ 1 then 0 else natLog2Aux fuel (n / 2) + 1

def natLog2 (n : Nat) : Nat := natLog2Aux n n

/-- Floor of log₂ of the positive fraction `a / b`: it is
`natLog2 a - natLog2 b` or one less, decided by comparing `a / b`
with `2 ^ L`. -/
def fracLog2 (a b : Nat) : ℤ :=
  let L : ℤ := (natLog2 a : ℤ) - (natLog2 b : ℤ)
  if b * 2 ^ L.toNat ≤ a * 2 ^ (-L).toNat then L else L - 1

/-- Rounding of the fraction `A / B` (with `B > 0`) to the nearest
natural number, ties to even. -/
def rnePos (A B : Nat) : Nat :=
  let n := A / B
  let r := A % B
  if 2 * r < B then n
  else if B < 2 * r then n + 1
  else if n % 2 = 0 then n else n + 1

/-- Binary64 rounding of a non-negative fraction: scale into
`[2^52, 2^53)`, round the scaled significand to the nearest integer
(ties to even), and scale back.  The result's denominator is `1` or a
power of two. -/
def fpRound (p : Nat × Nat) : Nat × Nat :=
  if p.1 = 0 then (0, 1)
  else
    let e : ℤ := fracLog2 p.1 p.2 - 52
    if 0 ≤ e then (rnePos p.1 (p.2 * 2 ^ e.toNat) * 2 ^ e.toNat, 1)
    else (rnePos (p.1 * 2 ^ (-e).toNat) p.2, 2 ^ (-e).toNat)

/-- Conversion of a Python int to a double (`float(n)`, as happens in
`int * float` and `int + float`). -/
def fpOfNat (n : Nat) : Nat × Nat := fpRound (n, 1)

/-- Binary64 multiplication: exact product, then one rounding. -/
def fpMul (p q : Nat × Nat) : Nat × Nat := fpRound (p.1 * q.1, p.2 * q.2)

/-- Binary64 addition: exact sum, then one rounding. -/
def fpAdd (p q : Nat × Nat) : Nat × Nat :=
  fpRound (p.1 * q.2 + q.1 * p.2, p.2 * q.2)

/-- Conversion `int(q)` in Python on a non-negative float: truncation
toward zero, i.e. the floor of the fraction. -/
def fpTrunc (p : Nat × Nat) : Nat := p.1 / p.2

/-- The double the source literal `0.2` denotes
(`3602879701896397 / 2^54`, slightly above 1/5). -/
def c02 : Nat × Nat := fpRound (2, 10)

/-- The double the source literal `9.7` denotes
(`5460614548186726 / 2^49`, slightly below 97/10). -/
def c97 : Nat × Nat := fpRound (97, 10)

/-! ## `Backend.send_table`: window width computation

    columnwidth = [max(len(str(df_table[col].name)),
                       df_table[col].astype(str).str.len().max()) for col in ...]
    columnwidth = [int(x + (max(columnwidth) - min(columnwidth)) * 0.2)
                   for x in columnwidth]
    width = max(int(min(sum(columnwidth) * 9.7, self.WIDTH + 100)), 800)

A DataFrame column is embedded as its name plus the list of its values\'
string renderings; `len`, `max`, `min` and `sum` on Python ints are
exact.  The float steps are embedded operation by operation:
`int * float` converts the int with `fpOfNat` and rounds the product
(`fpMul`); `int + float` likewise (`fpAdd`); `int(...)` truncates
(`fpTrunc`); `min(float, int)` compares the exact values — the fraction
`a / b` is at most the int `K` iff `a ≤ K * b` — and keeps the float
when it is not larger. -/

structure TableColumn where
  name : String
  values : List String
deriving DecidableEq, Repr

/-- Value of `df_table[col].astype(str).str.len().max()` for a column
with at least one row. -/
def cellMaxLen (vs : List String) : Nat := (vs.map String.length).foldl Nat.max 0

/-- Value of `max(len(str(df_table[col].name)), df_table[col].astype(str).str.len().max())`. -/
def colWidth (c : TableColumn) : Nat := Nat.max c.name.length (cellMaxLen c.values)

/-- Python `max(...)` over a (non-empty) list of naturals. -/
def listMax (l : List Nat) : Nat := l.foldl Nat.max 0

/-- Python `min(...)` over a non-empty list of naturals. -/
def listMin : List Nat → Nat
  | [] => 0
  | x :: xs => xs.foldl Nat.min x

/-- The inflated column widths
`[int(x + (max(columnwidth) - min(columnwidth)) * 0.2) for x in columnwidth]`,
with each float step rounded to binary64. -/
def inflatedWidths (cols : List TableColumn) : List Nat :=
  let columnwidth := cols.map colWidth
  let spread := listMax columnwidth - listMin columnwidth
  let inc := fpMul (fpOfNat spread) c02
  columnwidth.map (fun x => fpTrunc (fpAdd (fpOfNat x) inc))

/-- The window width computed by `Backend.send_table` (`self.WIDTH` is
the configured width):
`max(int(min(sum(columnwidth) * 9.7, self.WIDTH + 100)), 800)` with the
multiplication in binary64; `min` keeps the float unless the int is
strictly smaller, and `int` of an int is that int. -/
def send_table_width (WIDTH : Nat) (cols : List TableColumn) : Nat :=
  let T := (inflatedWidths cols).foldl (· + ·) 0
  let w1 := fpMul (fpOfNat T) c97
  Nat.max (if w1.1 ≤ (WIDTH + 100) * w1.2 then fpTrunc w1 else WIDTH + 100) 800

/-- The function `clamp(v, min=lo, max=hi)` as the spec words it. -/
def clamp (v lo hi : ℤ) : ℤ := max lo (min v hi)

/-- The window width as the claim words it, read in exact real
arithmetic: per-column width `max(name length, max value length)`, each
inflated by 20% of the spread between the widest and narrowest column,
summed, scaled by the character-to-pixel factor 9.7 = 97/10, and clamped
to `[800, configured + 100]` (floors where the code truncates to
`int`).  The program computes the float steps in binary64 instead, and
the stored double for 9.7 lies below 97/10, so the program falls below
this value at rounding boundaries. -/
def spec_table_width (WIDTH : Nat) (cols : List TableColumn) : ℤ :=
  let ws := cols.map colWidth
  let spread : ℚ := (listMax ws : ℚ) - (listMin ws : ℚ)
  let inflated : List ℤ := ws.map (fun (x : ℕ) => ⌊(x : ℚ) + spread / 5⌋)
  clamp ⌊(97 / 10 : ℚ) * ((inflated.foldl (· + ·) 0 : ℤ) : ℚ)⌋ 800 ((WIDTH : ℤ) + 100)

/-- The claim\'s clamp formula with the scaling performed the way the
program performs it — in binary64, with the stored factor `c97` (the
double nearest 9.7) — applied to the inflated column widths. -/
def spec_table_width_fp (WIDTH : Nat) (cols : List TableColumn) : ℤ :=
  clamp ((fpTrunc (fpMul (fpOfNat ((inflatedWidths cols).foldl (· + ·) 0)) c97) : ℤ))
    800 ((WIDTH : ℤ) + 100)


/-! ## Singleton creation (`Backend.__new__`, `create_backend`)

    def __new__(cls, *args, **kwargs):
        if not hasattr(cls, "instance"):
            cls.instance = super().__new__(cls)
        return cls.instance

Python object identity is embedded by numbering objects: `PyWorld` holds
the `Backend.instance` class attribute, the per-object
`charting_settings` attribute store, the module global `BACKEND`, and a
fresh-id counter.  Crucially, Python runs `__init__` on the object
returned by `__new__` on *every* `Backend(...)` call, so the singleton's
`charting_settings` is reassigned each time; `create_backend` only calls
the constructor when the global `BACKEND` is `None`.  Settings are
embedded as an opaque `Nat`. -/

structure PyWorld where
  instanceId : Option Nat
  settingsOf : Nat → Option Nat
  backendGlobal : Option Nat
  fresh : Nat

def PyWorld.init : PyWorld := ⟨none, fun _ => none, none, 0⟩

/-- One `Backend(settings)` call: `__new__` reuses `cls.instance` when it
exists (creating it otherwise), then `__init__` runs unconditionally and
stores `settings` on the returned object.  Returns the object id. -/
def Backend_call (settings : Nat) (w : PyWorld) : Nat × PyWorld :=
  let p :=
    match w.instanceId with
    | some i => (i, w)
    | none => (w.fresh, { w with instanceId := some w.fresh, fresh := w.fresh + 1 })
  (p.1, { p.2 with
            settingsOf := fun j => if j = p.1 then some settings else p.2.settingsOf j })

/-- Embedding of `create_backend(charting_settings)`: constructs the backend only when
the module global `BACKEND` is still `None`. -/
def create_backend (settings : Nat) (w : PyWorld) : PyWorld :=
  match w.backendGlobal with
  | some _ => w
  | none =>
    let p := Backend_call settings w
    { p.2 with backendGlobal := some p.1 }

/-! ## Version-gated health check (`Backend.check_backend`)

    if not self.isatty: return None
    if not hasattr(PyWry, "__version__"):
        try: from pywry import __version__ as pywry_version
        except ImportError:
            self.max_retries = 0
            return warnings.warn(message)
        PyWry.__version__ = pywry_version
    if version.parse(PyWry.__version__) < version.parse("0.5.12"):
        self.max_retries = 0
        return warnings.warn(message)
    if version.parse(PyWry.__version__) > version.parse("0.5.12"):
        return super().check_backend()
    try: return self.loop.run_until_complete(super().check_backend())
    except Exception: return None

Versions are major.minor.patch triples ordered lexicographically; the
external renderer's probe (`super().check_backend()`) is an outcome
parameter, and `from pywry import __version__` is the `importVer`
parameter (`none` = ImportError). -/

structure Ver where
  major : Nat
  minor : Nat
  patch : Nat
deriving DecidableEq, Repr

/-- Comparison `version.parse(a) < version.parse(b)` for release triples. -/
def Ver.lt (a b : Ver) : Bool :=
  a.major < b.major ||
    (a.major = b.major &&
      (a.minor < b.minor || (a.minor = b.minor && a.patch < b.patch)))

/-- The minimum required PyWry version `0.5.12`. -/
def minVer : Ver := ⟨0, 5, 12⟩

/-- Outcome of the external renderer's own probe `super().check_backend()`. -/
inductive ProbeOutcome where
  | succeeds
  | raises
deriving DecidableEq, Repr

inductive CheckOutcome where
  /-- `not self.isatty`: returns `None` before any version logic. -/
  | skipped
  /-- warning issued (`warnings.warn(message)` returned); dispatch disabled. -/
  | warned
  /-- above minimum: the probe is called directly and its behaviour
  (value or exception) propagates to the caller. -/
  | delegated (p : ProbeOutcome)
  /-- exactly at minimum, probe succeeded: its value is returned. -/
  | probeValue
  /-- exactly at minimum, probe raised: the exception is swallowed and
  `None` is returned — treated as healthy, not fatal. -/
  | suppressed
deriving DecidableEq, Repr

/-- The dispatcher state the claims observe: interactive-terminal flag,
retry budget, and the renderer's reported version (`none` = the
`PyWry.__version__` attribute does not exist). -/
structure DispatcherState where
  isatty : Bool
  max_retries : Nat
  version : Option Ver
deriving DecidableEq, Repr

/-- The three version branches of `check_backend` once a version string is
at hand. -/
def checkVersion (v : Ver) (probe : ProbeOutcome) (st : DispatcherState) :
    CheckOutcome × DispatcherState :=
  if Ver.lt v minVer then (CheckOutcome.warned, { st with max_retries := 0 })
  else if Ver.lt minVer v then (CheckOutcome.delegated probe, st)
  else
    match probe with
    | ProbeOutcome.succeeds => (CheckOutcome.probeValue, st)
    | ProbeOutcome.raises => (CheckOutcome.suppressed, st)

/-- Embedding of `Backend.check_backend`. -/
def check_backend (importVer : Option Ver) (probe : ProbeOutcome)
    (st : DispatcherState) : CheckOutcome × DispatcherState :=
  if st.isatty = false then (CheckOutcome.skipped, st)
  else
    match st.version with
    | none =>
      match importVer with
      | none => (CheckOutcome.warned, { st with max_retries := 0 })
      | some v => checkVersion v probe { st with version := some v }
    | some v => checkVersion v probe st

/-! ## Asset lookup (`get_plotly_html`, `get_table_html`, `get_window_icon`)

The filesystem is a boolean per asset.  The two HTML template getters
warn, zero the retry budget and raise `FileNotFoundError` when the file is
missing (the raise is an `Except.error`); `get_window_icon` instead
returns `None` and leaves the dispatcher state untouched.  (The getters'
call to `set_window_dimensions` only refreshes `WIDTH`/`HEIGHT` from the
settings and is outside the claims.) -/

def get_plotly_html (fileExists : Bool) (st : DispatcherState) :
    Except String String × DispatcherState :=
  if fileExists then (Except.ok "plotly.html", st)
  else (Except.error "FileNotFoundError", { st with max_retries := 0 })

def get_table_html (fileExists : Bool) (st : DispatcherState) :
    Except String String × DispatcherState :=
  if fileExists then (Except.ok "table.html", st)
  else (Except.error "FileNotFoundError", { st with max_retries := 0 })

def get_window_icon (iconExists : Bool) (st : DispatcherState) :
    Option String × DispatcherState :=
  (if iconExists then some "assets/Terminal_icon.png" else none, st)

/-! ## Outgoing message shape (`send_figure`, `send_table`, `send_url`)

Each dispatch enqueues one Python dict; dicts preserve insertion order, so
a dict literal with a `**kwargs` splat is embedded as a key/value list in
the literal's order.  Values carry what the claims need; `json_data` for a
figure is the mutated figure (serialized after the in-place title/height
mutation) plus the telemetry merge. -/

inductive PyVal where
  | pathV (p : String)
  | strV (s : String)
  | figJson (fig : GoFigure) (command_location : Option String)
  | tableJson (payload : String)
  | intV (n : Int)
  | optPathV (o : Option String)
  | optV (o : Option String)
deriving DecidableEq, Repr

/-- Embedding of `Backend.get_kwargs(title)`: window title, icon and download path. -/
def get_kwargs (title : Option String) (iconExists : Bool)
    (download_path : String) (st : DispatcherState) : List (String × PyVal) :=
  [("title", PyVal.strV ("OpenBB Platform" ++
      (match title with
       | some t => if t = "" then "" else " - " ++ t
       | none => ""))),
   ("icon", PyVal.optPathV (get_window_icon iconExists st).1),
   ("download_path", PyVal.strV download_path)]

/-- The dict enqueued by `send_figure`:
`dict(html=..., json_data=..., export_image=..., **self.get_kwargs(command_location))`. -/
def send_figure_outgoing (fig : GoFigure) (export_image : Option String)
    (command_location : Option String) (iconExists : Bool)
    (download_path : String) (st : DispatcherState) : List (String × PyVal) :=
  [("html", PyVal.pathV "plotly.html"),
   ("json_data", PyVal.figJson (send_figure_fig fig) command_location),
   ("export_image", PyVal.optV export_image)]
  ++ get_kwargs command_location iconExists download_path st

/-- The dict enqueued by `send_table`:
`dict(html=..., json_data=..., width=..., height=self.HEIGHT - 100, **kwargs)`. -/
def send_table_outgoing (WIDTH HEIGHT : Nat) (cols : List TableColumn)
    (payload : String) (command_location : Option String) (iconExists : Bool)
    (download_path : String) (st : DispatcherState) : List (String × PyVal) :=
  [("html", PyVal.pathV "table.html"),
   ("json_data", PyVal.tableJson payload),
   ("width", PyVal.intV (send_table_width WIDTH cols)),
   ("height", PyVal.intV ((HEIGHT : Int) - 100))]
  ++ get_kwargs command_location iconExists download_path st

/-- Python `a or b` on an optional integer (`0` and `None` are falsy). -/
def orDefault (o : Option Nat) (d : Nat) : Nat :=
  match o with
  | some v => if v = 0 then d else v
  | none => d

/-- The inline redirect markup `send_url` builds. -/
def urlScript (url : String) : String :=
  "\n        <script>\n            window.location.replace(\"" ++ url ++
    "\");\n        </script>\n        "

/-- The dict enqueued by `send_url`:
`dict(html=script, **self.get_kwargs(title), width=..., height=...)`. -/
def send_url_outgoing (url : String) (title : Option String)
    (width height : Option Nat) (WIDTH HEIGHT : Nat) (iconExists : Bool)
    (download_path : String) (st : DispatcherState) : List (String × PyVal) :=
  ("html", PyVal.strV (urlScript url)) ::
    get_kwargs title iconExists download_path st
  ++ [("width", PyVal.intV (orDefault width WIDTH)),
      ("height", PyVal.intV (orDefault height HEIGHT))]

/-- The key set of an enqueued message, in insertion order. -/
def msgKeys (l : List (String × PyVal)) : List String := l.map Prod.fst

/-! ## `FinancialRatiosQueryParams` (financial_ratios.py)

Two `mode="before"` field validators: `to_upper` on `symbol` and
`to_lower` on `period`; `limit` has no validator.  Python string
truthiness makes `v.lower() if v else v` pass `None` and `""` through
unchanged. -/

def to_upper (v : String) : String := v.toUpper

def to_lower (v : Option String) : Option String :=
  match v with
  | none => none
  | some s => if s = "" then some s else some s.toLower

/-- Validated construction of `FinancialRatiosQueryParams`: a missing
`period`/`limit` takes the field default (`"annual"` / `12`) without
running the validator; provided values go through the validators. -/
structure FinancialRatiosQueryParams where
  symbol : String
  period : String
  limit : Nat
deriving DecidableEq, Repr

def mkFinancialRatiosQueryParams (symbol : String) (period : Option String)
    (limit : Option Nat) : FinancialRatiosQueryParams :=
  { symbol := to_upper symbol,
    period :=
      match period with
      | none => "annual"
      | some p => (to_lower (some p)).getD "annual",
    limit := limit.getD 12 }

/-! ## Telemetry identity (`Backend.get_json_update`)

    posthog = dict(collect_logs=self.charting_settings.log_collect)
    if (self.charting_settings.log_collect
            and self.charting_settings.user_uuid
            and not self.logged_in):
        self.logged_in = True
        posthog.update(dict(user_id=..., email=...))

The observable modelled per call: whether the `posthog` record carries the
user identity (`user_id`/`email`), and the next value of the
`self.logged_in` flag (initialized `False` in `__init__`). -/

structure TelemetrySettings where
  log_collect : Bool
  user_uuid : Option String
deriving DecidableEq, Repr

/-- Python truthiness of the optional `user_uuid` string. -/
def uuidTruthy : Option String → Bool
  | none => false
  | some s => !s.isEmpty

/-- One `get_json_update` call: (identity included?, new `logged_in`). -/
def get_json_update_posthog (cs : TelemetrySettings) (logged_in : Bool) :
    Bool × Bool :=
  if cs.log_collect && uuidTruthy cs.user_uuid && !logged_in
  then (true, true)
  else (false, logged_in)

/-- A sequence of `get_json_update` calls threading `self.logged_in`:
returns the per-call identity-inclusion flags and the final flag. -/
def runUpdates : List TelemetrySettings → Bool → List Bool × Bool
  | [], logged_in => ([], logged_in)
  | cs :: rest, logged_in =>
    let r := get_json_update_posthog cs logged_in
    let rr := runUpdates rest r.2
    (r.1 :: rr.1, rr.2)

/-- If the file never exists, the loop runs its full budget from any
starting point: with sufficient fuel it exits with `maxPolls + 1` checks. -/
theorem pollLoopAux_never (exists_at : Nat → Bool)
    (h : ∀ n, exists_at n = false) (maxPolls : Nat) :
    ∀ fuel checks, maxPolls + 1 - checks ≤ fuel → checks ≤ maxPolls →
      pollLoopAux exists_at maxPolls fuel checks = maxPolls + 1 := by
  intro fuel
  induction fuel with
  | zero =>
    intro checks hle hub
    simp only [pollLoopAux]
    omega
  | succ n ih =>
    intro checks hle hub
    simp only [pollLoopAux, h checks, if_false, Bool.false_eq_true]
    by_cases hc : checks + 1 > maxPolls
    · simp only [hc, if_true]
      omega
    · simp only [hc, if_false]
      exact ih (checks + 1) (by omega) (by omega)

theorem findGt_length {l r : List Char} (h : findGt l = some r) :
    r.length < l.length := by
  induction l with
  | nil => simp [findGt] at h
  | cons c t ih =>
    simp only [findGt] at h
    by_cases hc : c = '>'
    · simp only [hc, if_true, Option.some.injEq] at h
      simp [← h]
    · simp only [hc, if_false] at h
      exact Nat.lt_trans (ih h) (by simp)

theorem findGt_mem {l r : List Char} (h : findGt l = some r) :
    ∀ c, c ∈ r → c ∈ l := by
  induction l with
  | nil => simp [findGt] at h
  | cons c t ih =>
    simp only [findGt] at h
    by_cases hc : c = '>'
    · simp only [hc, if_true, Option.some.injEq] at h
      intro x hx
      exact List.mem_cons_of_mem _ (h ▸ hx)
    · simp only [hc, if_false] at h
      intro x hx
      exact List.mem_cons_of_mem _ (ih h x hx)

theorem findGt_none {l : List Char} (h : findGt l = none) : '>' ∉ l := by
  induction l with
  | nil => simp
  | cons c t ih =>
    simp only [findGt] at h
    by_cases hc : c = '>'
    · simp [hc] at h
    · simp only [hc, if_false] at h
      simp only [List.mem_cons]
      rintro (rfl | hm)
      · exact hc rfl
      · exact ih h hm

theorem stripTagsFuel_mem {fuel : Nat} {l : List Char} :
    ∀ c, c ∈ stripTagsFuel fuel l → c ∈ l := by
  induction fuel generalizing l with
  | zero => simp [stripTagsFuel]
  | succ n ih =>
    cases l with
    | nil => simp [stripTagsFuel]
    | cons c r =>
      intro x hx
      simp only [stripTagsFuel] at hx
      by_cases hc : c = '<'
      · simp only [hc, if_true] at hx
        cases hg : findGt r with
        | some r' =>
          rw [hg] at hx
          exact List.mem_cons_of_mem _ (findGt_mem hg x (ih x hx))
        | none =>
          rw [hg] at hx
          rcases List.mem_cons.mp hx with rfl | hm
          · exact hc ▸ List.mem_cons_self _ _
          · exact List.mem_cons_of_mem _ (ih x hm)
      · simp only [hc, if_false] at hx
        rcases List.mem_cons.mp hx with rfl | hm
        · exact List.mem_cons_self _ _
        · exact List.mem_cons_of_mem _ (ih x hm)

/-- The output of tag stripping contains no remaining `<...>` match. -/
theorem hasTag_stripTagsFuel {fuel : Nat} {l : List Char}
    (h : l.length ≤ fuel) : hasTag (stripTagsFuel fuel l) = false := by
  induction fuel generalizing l with
  | zero =>
    have : l = [] := List.eq_nil_of_length_eq_zero (Nat.le_zero.mp h)
    simp [this, stripTagsFuel, hasTag]
  | succ n ih =>
    cases l with
    | nil => simp [stripTagsFuel, hasTag]
    | cons c r =>
      simp only [List.length_cons, Nat.succ_le_succ_iff] at h
      simp only [stripTagsFuel]
      by_cases hc : c = '<'
      · simp only [hc, if_true]
        cases hg : findGt r with
        | some r' =>
          have := findGt_length hg
          exact ih (by omega)
        | none =>
          simp only [hasTag, Bool.or_eq_false_iff, Bool.and_eq_false_iff]
          constructor
          · right
            by_cases hmem : '>' ∈ stripTagsFuel n r
            · exact absurd (stripTagsFuel_mem _ hmem) (findGt_none hg)
            · simpa using hmem
          · exact ih h
      · simp only [hc, if_false, hasTag, Bool.or_eq_false_iff,
          Bool.and_eq_false_iff]
        exact ⟨Or.inl (by simpa using hc), ih h⟩

theorem foldl_min_le (xs : List Nat) : ∀ a, xs.foldl Nat.min a ≤ a := by
  induction xs with
  | nil => intro a; simp
  | cons y ys ih =>
    intro a
    calc ys.foldl Nat.min (Nat.min a y) ≤ Nat.min a y := ih _
    _ ≤ a := Nat.min_le_left _ _

theorem le_foldl_max (xs : List Nat) : ∀ a, a ≤ xs.foldl Nat.max a := by
  induction xs with
  | nil => intro a; simp
  | cons y ys ih =>
    intro a
    calc a ≤ Nat.max a y := Nat.le_max_left _ _
    _ ≤ ys.foldl Nat.max (Nat.max a y) := ih _

theorem listMin_le_listMax {l : List Nat} (h : l ≠ []) : listMin l ≤ listMax l := by
  cases l with
  | nil => exact absurd rfl h
  | cons x xs =>
    calc listMin (x :: xs) ≤ x := foldl_min_le xs x
    _ ≤ Nat.max 0 x := Nat.le_max_right _ _
    _ ≤ listMax (x :: xs) := le_foldl_max xs _

/-- Natural-number division by a positive constant is the rational floor. -/
theorem int_floor_nat_div (m n : ℕ) : ⌊(m : ℚ) / n⌋ = ((m / n : ℕ) : ℤ) := by
  rw [← Nat.floor_div_eq_div (α := ℚ) m n,
    Int.natCast_floor_eq_floor (by positivity)]

theorem foldl_add_cast (l : List Nat) : ∀ a : Nat,
    (l.map (Nat.cast : Nat → ℤ)).foldl (· + ·) (a : ℤ) =
      ((l.foldl (· + ·) a : Nat) : ℤ) := by
  induction l with
  | nil => intro a; simp
  | cons x xs ih =>
    intro a
    simp only [List.map_cons, List.foldl_cons, ← Nat.cast_add]
    exact ih (a + x)

theorem foldl_add_cast_zero (l : List Nat) :
    (l.map (Nat.cast : Nat → ℤ)).foldl (· + ·) 0 =
      ((l.foldl (· + ·) 0 : Nat) : ℤ) := by
  simpa using foldl_add_cast l 0

/-- Claim C1, counterexample: when the file never appears, `process_image`
performs 51 polling iterations before giving up (the loop breaks only once
`checks > 50`), not the claimed 50. -/
theorem claim_C1_counterexample :
    process_image (fun _ => false) = (ExportResult.TimedOut, 51) ∧ (51 : Nat) ≠ 50 := by
  constructor
  · decide
  · decide

/-- Claim C1 (amended): for an export path whose file never appears,
`process_image` polls at fixed 200 ms intervals and returns `TimedOut`
without raising after exactly 51 = max_polls + 1 polling iterations, never
more; if the file already exists at call time it returns `Found`
immediately with zero polls. -/
theorem claim_C1_amended (exists_at : Nat → Bool) :
    ((∀ n, exists_at n = false) →
      process_image exists_at = (ExportResult.TimedOut, 51)) ∧
    (exists_at 0 = true → process_image exists_at = (ExportResult.Found, 0)) := by
  constructor
  · intro h
    have hloop : pollLoopAux exists_at 50 51 0 = 51 :=
      pollLoopAux_never exists_at h 50 51 0 (by omega) (by omega)
    simp [process_image, hloop, h 51]
  · intro h
    simp [process_image, pollLoopAux, h]

/-- Claim C1, witness for the amended theorem at the always-absent and
always-present filesystems. -/
theorem claim_C1_witness :
    process_image (fun _ => false) = (ExportResult.TimedOut, 51) ∧
    process_image (fun _ => true) = (ExportResult.Found, 0) :=
  ⟨(claim_C1_amended (fun _ => false)).1 (fun _ => rfl),
   (claim_C1_amended (fun _ => true)).2 rfl⟩

theorem fpRound_den_pos (p : Nat × Nat) : 0 < (fpRound p).2 := by
  rw [fpRound]
  by_cases h0 : p.1 = 0
  · simp [h0]
  · simp only [h0, if_false]
    by_cases he : 0 ≤ fracLog2 p.1 p.2 - 52
    · simp [he]
    · simp only [he, if_false]
      positivity

set_option maxRecDepth 8000 in
/-- Claim C2, counterexample: two columns of width 45 give spread 0 and
inflated sum 90, and the stored double for 9.7 lies just below 97/10, so
in binary64 `90 * 9.7 = 873 - 2^-43 = 872.99999999999989...`; the program
therefore computes window width `max(int(872.999...), 800) = 872`, while
the claimed exact clamp formula `clamp(⌊90 × 97/10⌋, 800, 1400 + 100)`
gives 873. -/
theorem claim_C2_counterexample :
    send_table_width 1400
      [TableColumn.mk "aaaaaaaaaaaaaaaaaaaaaaaaaaaaaaaaaaaaaaaaaaaaa" ["a"],
       TableColumn.mk "bbbbbbbbbbbbbbbbbbbbbbbbbbbbbbbbbbbbbbbbbbbbb" ["b"]] = 872 ∧
    spec_table_width 1400
      [TableColumn.mk "aaaaaaaaaaaaaaaaaaaaaaaaaaaaaaaaaaaaaaaaaaaaa" ["a"],
       TableColumn.mk "bbbbbbbbbbbbbbbbbbbbbbbbbbbbbbbbbbbbbbbbbbbbb" ["b"]] = 873 ∧
    (872 : ℤ) ≠ 873 := by
  refine ⟨by decide, ?_, by decide⟩
  have hws : [TableColumn.mk "aaaaaaaaaaaaaaaaaaaaaaaaaaaaaaaaaaaaaaaaaaaaa" ["a"],
      TableColumn.mk "bbbbbbbbbbbbbbbbbbbbbbbbbbbbbbbbbbbbbbbbbbbbb" ["b"]].map colWidth =
      [45, 45] := by decide
  have hmax : listMax [45, 45] = 45 := by decide
  have hmin : listMin [45, 45] = 45 := by decide
  simp only [spec_table_width, hws, hmax, hmin, List.map_cons, List.map_nil,
    List.foldl_cons, List.foldl_nil]
  norm_num [clamp, min_def, max_def]

/-- Claim C2 (amended): for every non-empty table, `send_table` computes
each column's width as `max(name length, max value string-length)`,
inflates every column width by 20% of the spread between the widest and
narrowest column (each float step in binary64), and the window width
equals `clamp(trunc(sum(inflated) ⊗ 9.7), min = 800, max = configured
width + 100)`, where `⊗` is binary64 multiplication by the stored double
nearest 9.7 — which lies just below 97/10, so the width falls one below
the exact-arithmetic clamp value at rounding boundaries. -/
theorem claim_C2_table_width (WIDTH : Nat) (cols : List TableColumn)
    (hne : cols ≠ []) (hrows : ∀ c ∈ cols, c.values ≠ []) :
    ((send_table_width WIDTH cols : Nat) : ℤ) = spec_table_width_fp WIDTH cols := by
  clear hne hrows
  simp only [send_table_width, spec_table_width_fp]
  set w1 := fpMul (fpOfNat ((inflatedWidths cols).foldl (· + ·) 0)) c97 with hw
  have hden : 0 < w1.2 := by
    rw [hw, fpMul]
    exact fpRound_den_pos _
  by_cases hcmp : w1.1 ≤ (WIDTH + 100) * w1.2
  · have hle : fpTrunc w1 ≤ WIDTH + 100 := by
      have h1 : w1.1 / w1.2 ≤ ((WIDTH + 100) * w1.2) / w1.2 :=
        Nat.div_le_div_right hcmp
      rwa [Nat.mul_div_cancel _ hden] at h1
    rw [if_pos hcmp, clamp]
    rw [min_eq_left (by exact_mod_cast hle)]
    push_cast [Nat.cast_max]
    exact max_comm _ _
  · have hge : WIDTH + 100 ≤ fpTrunc w1 := by
      rw [fpTrunc]
      exact (Nat.le_div_iff_mul_le hden).mpr (Nat.le_of_lt (Nat.lt_of_not_le hcmp))
    rw [if_neg hcmp, clamp]
    rw [min_eq_right (by exact_mod_cast hge)]
    push_cast [Nat.cast_max]
    exact max_comm _ _

/-- Claim C2, witness for the amended theorem at a concrete two-column
table with configured width 1400. -/
theorem claim_C2_witness :
    ((send_table_width 1400
        [TableColumn.mk "name" ["ab"], TableColumn.mk "x" ["abcdefghijkl"]] : Nat) : ℤ) =
      spec_table_width_fp 1400
        [TableColumn.mk "name" ["ab"], TableColumn.mk "x" ["abcdefghijkl"]] :=
  claim_C2_table_width 1400
    [TableColumn.mk "name" ["ab"], TableColumn.mk "x" ["abcdefghijkl"]]
    (by simp) (by simp)

/-- Claim C7: `send_figure` increases the serialized layout height by
exactly 69 pixels relative to the input figure's layout height (the
serialization runs after the in-place `fig.layout.height += 69`). -/
theorem claim_C7_height_offset (fig : GoFigure) :
    (send_figure_fig fig).height = fig.height + 69 := rfl

/-- Claim C6, counterexample: the non-empty, markup-tagged input title
`"Interactive <b>Chart</b>"` is dispatched as exactly the literal default
`"Interactive Chart"`, so the dispatched title can be the literal default
even when a non-empty input title was supplied. -/
theorem claim_C6_counterexample :
    (GoFigure.mk "Interactive <b>Chart</b>" 500).title_text ≠ "" ∧
    hasTag (GoFigure.mk "Interactive <b>Chart</b>" 500).title_text.data = true ∧
    (send_figure_fig (GoFigure.mk "Interactive <b>Chart</b>" 500)).title_text =
      "Interactive Chart" := by
  refine ⟨by decide, by decide, by decide⟩

/-- Claim C6 (amended): for any figure with a non-empty title,
`send_figure` replaces the in-memory title by the tag-stripped input (so
the mutation is observable on the figure itself), the dispatched payload's
title equals that stripped string, and it contains no `<...>` tag; the
literal default `"Interactive Chart"` is substituted only for empty
titles, though a stripped input title may coincide with it. -/
theorem claim_C6_amended (fig : GoFigure) (h : fig.title_text ≠ "") :
    (send_figure_fig fig).title_text = stripTags fig.title_text ∧
    hasTag (send_figure_fig fig).title_text.data = false := by
  constructor
  · simp [send_figure_fig, h]
  · simp only [send_figure_fig, if_neg h, stripTags]
    exact hasTag_stripTagsFuel (Nat.le_refl _)

/-- Claim C6, witness for the amended theorem at a concrete tagged title. -/
theorem claim_C6_witness :
    (send_figure_fig (GoFigure.mk "a<b>c</b>" 10)).title_text =
      stripTags "a<b>c</b>" ∧
    hasTag (send_figure_fig (GoFigure.mk "a<b>c</b>" 10)).title_text.data = false :=
  claim_C6_amended (GoFigure.mk "a<b>c</b>" 10) (by decide)

/-- Strict lexicographic order on version triples, unfolded to a
proposition. -/
theorem ver_lt_iff (a b : Ver) : Ver.lt a b = true ↔
    (a.major < b.major ∨ (a.major = b.major ∧
      (a.minor < b.minor ∨ (a.minor = b.minor ∧ a.patch < b.patch)))) := by
  simp [Ver.lt]

theorem ver_lt_asymm {a b : Ver} (h : Ver.lt a b = true) :
    Ver.lt b a = false := by
  rw [ver_lt_iff] at h
  rw [Bool.eq_false_iff, Ne, ver_lt_iff]
  omega

/-- Once `logged_in` is set, no later `get_json_update` call includes the
identity and the flag stays set. -/
theorem runUpdates_logged_in (css : List TelemetrySettings) :
    runUpdates css true = (List.replicate css.length false, true) := by
  induction css with
  | nil => rfl
  | cons cs rest ih =>
    simp [runUpdates, get_json_update_posthog, ih, List.replicate]

theorem count_true_runUpdates (css : List TelemetrySettings) :
    (runUpdates css false).1.count true ≤ 1 := by
  induction css with
  | nil => simp [runUpdates]
  | cons cs rest ih =>
    simp only [runUpdates]
    by_cases h : (cs.log_collect && uuidTruthy cs.user_uuid) = true
    · simp [get_json_update_posthog, h, runUpdates_logged_in, List.count_replicate]
    · have hb : (cs.log_collect && uuidTruthy cs.user_uuid) = false := by
        simpa using h
      simp only [get_json_update_posthog, Bool.not_false, Bool.and_true, hb,
        if_false, Bool.false_eq_true]
      simpa [List.count_cons] using ih

/-- Claim C3, counterexample: calling the `Backend` constructor twice
returns the identical instance, but the second call's settings are NOT
ignored — Python re-runs `__init__` on the existing instance, so the
stored `charting_settings` after `Backend(0)` then `Backend(1)` is `1`. -/
theorem claim_C3_counterexample :
    (Backend_call 1 (Backend_call 0 PyWorld.init).2).1 =
      (Backend_call 0 PyWorld.init).1 ∧
    (Backend_call 1 (Backend_call 0 PyWorld.init).2).2.settingsOf
      (Backend_call 0 PyWorld.init).1 = some 1 :=
  ⟨rfl, rfl⟩

/-- Claim C3 (amended): at most one Backend instance exists per process —
a second constructor call returns the identical instance, and
`create_backend` ignores later settings entirely once the global handle
exists; but a direct second constructor call re-runs `__init__`, so its
settings overwrite the singleton's stored settings. -/
theorem claim_C3_amended (s₁ s₂ : Nat) (w wg : PyWorld) (i : Nat)
    (hg : wg.backendGlobal = some i) :
    (Backend_call s₂ (Backend_call s₁ w).2).1 = (Backend_call s₁ w).1 ∧
    create_backend s₂ wg = wg ∧
    (Backend_call s₂ (Backend_call s₁ w).2).2.settingsOf
      (Backend_call s₁ w).1 = some s₂ := by
  refine ⟨?_, ?_, ?_⟩
  · cases hw : w.instanceId <;> simp [Backend_call, hw]
  · simp [create_backend, hg]
  · cases hw : w.instanceId <;> simp [Backend_call, hw]

/-- Claim C3, witness for the amended theorem: a fresh world and a world
whose global handle is object 0. -/
theorem claim_C3_witness :
    (Backend_call 5 (Backend_call 3 PyWorld.init).2).1 =
      (Backend_call 3 PyWorld.init).1 ∧
    create_backend 5 (PyWorld.mk (some 0) (fun _ => none) (some 0) 1) =
      PyWorld.mk (some 0) (fun _ => none) (some 0) 1 ∧
    (Backend_call 5 (Backend_call 3 PyWorld.init).2).2.settingsOf
      (Backend_call 3 PyWorld.init).1 = some 5 :=
  claim_C3_amended 3 5 PyWorld.init
    (PyWorld.mk (some 0) (fun _ => none) (some 0) 1) 0 rfl

/-- Claim C4: with an interactive terminal, `check_backend` compares the
reported version to the minimum 0.5.12: strictly below, it zeroes the
retry budget and returns the warning; strictly above, it delegates to the
renderer's own probe (whose outcome, exception included, propagates);
exactly at the minimum, it runs the probe via a blocking
`loop.run_until_complete` with `except Exception: return None`, so a
raising probe yields a plain `None` return — healthy, not fatal. -/
theorem claim_C4_version_gate
    (stL stH stE : DispatcherState) (vL vH : Ver) (p q : ProbeOutcome)
    (hL1 : stL.isatty = true) (hL2 : stL.version = some vL)
    (hL3 : Ver.lt vL minVer = true)
    (hH1 : stH.isatty = true) (hH2 : stH.version = some vH)
    (hH3 : Ver.lt minVer vH = true)
    (hE1 : stE.isatty = true) (hE2 : stE.version = some minVer) :
    check_backend none p stL =
      (CheckOutcome.warned, { stL with max_retries := 0 }) ∧
    check_backend none q stH = (CheckOutcome.delegated q, stH) ∧
    check_backend none ProbeOutcome.raises stE =
      (CheckOutcome.suppressed, stE) := by
  have hrefl : Ver.lt minVer minVer = false := by decide
  refine ⟨?_, ?_, ?_⟩
  · simp [check_backend, hL1, hL2, checkVersion, hL3]
  · simp [check_backend, hH1, hH2, checkVersion, ver_lt_asymm hH3, hH3]
  · simp [check_backend, hE1, hE2, checkVersion, hrefl]

/-- Claim C4, witness at versions 0.5.11 (below), 0.6.0 (above, with a
raising probe that propagates) and 0.5.12 (exact, with a raising probe
that is suppressed). -/
theorem claim_C4_witness :
    check_backend none ProbeOutcome.succeeds
        (DispatcherState.mk true 30 (some (Ver.mk 0 5 11))) =
      (CheckOutcome.warned, DispatcherState.mk true 0 (some (Ver.mk 0 5 11))) ∧
    check_backend none ProbeOutcome.raises
        (DispatcherState.mk true 30 (some (Ver.mk 0 6 0))) =
      (CheckOutcome.delegated ProbeOutcome.raises,
        DispatcherState.mk true 30 (some (Ver.mk 0 6 0))) ∧
    check_backend none ProbeOutcome.raises
        (DispatcherState.mk true 30 (some (Ver.mk 0 5 12))) =
      (CheckOutcome.suppressed, DispatcherState.mk true 30 (some (Ver.mk 0 5 12))) :=
  claim_C4_version_gate
    (DispatcherState.mk true 30 (some (Ver.mk 0 5 11)))
    (DispatcherState.mk true 30 (some (Ver.mk 0 6 0)))
    (DispatcherState.mk true 30 (some (Ver.mk 0 5 12)))
    (Ver.mk 0 5 11) (Ver.mk 0 6 0) ProbeOutcome.succeeds ProbeOutcome.raises
    rfl rfl (by decide) rfl rfl (by decide) rfl rfl

/-- Claim C5, counterexample: the message `send_figure` enqueues has keys
`html, json_data, export_image, title, icon, download_path` — it carries
no `width` and no `height` field, contradicting the claimed uniform
mapping shape. -/
theorem claim_C5_counterexample :
    msgKeys (send_figure_outgoing (GoFigure.mk "t" 0) none none true "d"
        (DispatcherState.mk true 30 none)) =
      ["html", "json_data", "export_image", "title", "icon", "download_path"] ∧
    "width" ∉ msgKeys (send_figure_outgoing (GoFigure.mk "t" 0) none none true "d"
        (DispatcherState.mk true 30 none)) ∧
    "height" ∉ msgKeys (send_figure_outgoing (GoFigure.mk "t" 0) none none true "d"
        (DispatcherState.mk true 30 none)) := by
  refine ⟨rfl, by decide, by decide⟩

/-- Claim C5 (amended): each dispatch enqueues a mapping with `html`, a
`title`, an `icon` and a `download_path` field, plus a body field
appropriate to the payload kind; but only table and URL messages carry
`width`/`height` — the figure message instead carries `export_image` and
no size fields. -/
theorem claim_C5_amended (fig : GoFigure) (export_image : Option String)
    (cl tl : Option String) (iconE iconE2 iconE3 : Bool) (dp : String)
    (st : DispatcherState) (WIDTH HEIGHT : Nat) (cols : List TableColumn)
    (payload url : String) (uw uh : Option Nat) :
    msgKeys (send_figure_outgoing fig export_image cl iconE dp st) =
      ["html", "json_data", "export_image", "title", "icon", "download_path"] ∧
    msgKeys (send_table_outgoing WIDTH HEIGHT cols payload cl iconE2 dp st) =
      ["html", "json_data", "width", "height", "title", "icon", "download_path"] ∧
    msgKeys (send_url_outgoing url tl uw uh WIDTH HEIGHT iconE3 dp st) =
      ["html", "title", "icon", "download_path", "width", "height"] :=
  ⟨rfl, rfl, rfl⟩

/-- Claim C8, counterexample: a missing window icon does not raise and
does not change dispatcher state — `get_window_icon` returns the ordinary
value `None` and the retry budget stays 30. -/
theorem claim_C8_counterexample :
    get_window_icon false (DispatcherState.mk true 30 none) =
      (none, DispatcherState.mk true 30 none) ∧
    (get_window_icon false (DispatcherState.mk true 30 none)).2.max_retries = 30 :=
  ⟨rfl, rfl⟩

/-- Claim C8 (amended): a missing `plotly.html` or `table.html` template
raises `FileNotFoundError` after zeroing the retry budget (a
side-effecting error), while a missing window icon raises nothing and
leaves the dispatcher state untouched, returning `None`. -/
theorem claim_C8_amended (st : DispatcherState) :
    get_plotly_html false st =
      (Except.error "FileNotFoundError", { st with max_retries := 0 }) ∧
    get_table_html false st =
      (Except.error "FileNotFoundError", { st with max_retries := 0 }) ∧
    get_window_icon false st = (none, st) :=
  ⟨rfl, rfl, rfl⟩

/-- Claim C9: the financial-ratios query schema applies exactly two field
normalizations — `symbol` is uppercased character-wise and a provided
non-empty `period` is lowercased character-wise; a missing/`None` period
passes through the validator unchanged (the field then takes its default
`"annual"`), and `limit` is not normalized. -/
theorem claim_C9_normalization (s p : String) (l : Option Nat) (hp : p ≠ "") :
    (mkFinancialRatiosQueryParams s (some p) l).symbol =
      String.map Char.toUpper s ∧
    (mkFinancialRatiosQueryParams s (some p) l).period =
      String.map Char.toLower p ∧
    (mkFinancialRatiosQueryParams s (some p) l).limit = l.getD 12 ∧
    to_lower none = none ∧
    (mkFinancialRatiosQueryParams s none l).period = "annual" := by
  refine ⟨?_, ?_, rfl, rfl, rfl⟩
  · simp [mkFinancialRatiosQueryParams, to_upper, String.toUpper]
  · simp [mkFinancialRatiosQueryParams, to_lower, hp, String.toLower]

/-- Claim C9, witness at symbol `"aapl"`, period `"Annual"`, limit 4. -/
theorem claim_C9_witness :
    (mkFinancialRatiosQueryParams "aapl" (some "Annual") (some 4)).symbol =
      String.map Char.toUpper "aapl" ∧
    (mkFinancialRatiosQueryParams "aapl" (some "Annual") (some 4)).period =
      String.map Char.toLower "Annual" ∧
    (mkFinancialRatiosQueryParams "aapl" (some "Annual") (some 4)).limit =
      (some 4).getD 12 ∧
    to_lower none = none ∧
    (mkFinancialRatiosQueryParams "aapl" none (some 4)).period = "annual" :=
  claim_C9_normalization "aapl" "Annual" (some 4) (by decide)

/-- Claim C10: across any sequence of `get_json_update` calls starting
from the `__init__` state `logged_in = False`, the user identity is
included in at most one telemetry record; it is included exactly when log
collection is enabled, the user uuid is truthy and the flag is still
clear, including it flips the flag, and once the flag is set every later
record omits the identity and the flag stays set. -/
theorem claim_C10_identity_once (css : List TelemetrySettings) :
    (runUpdates css false).1.count true ≤ 1 ∧
    (∀ cs, (get_json_update_posthog cs false).1 =
      (cs.log_collect && uuidTruthy cs.user_uuid)) ∧
    (∀ cs, (get_json_update_posthog cs false).2 =
      (cs.log_collect && uuidTruthy cs.user_uuid)) ∧
    (∀ cs, get_json_update_posthog cs true = (false, true)) := by
  refine ⟨count_true_runUpdates css, ?_, ?_, ?_⟩
  · intro cs
    cases hlc : cs.log_collect <;> cases hu : uuidTruthy cs.user_uuid <;>
      simp [get_json_update_posthog, hlc, hu]
  · intro cs
    cases hlc : cs.log_collect <;> cases hu : uuidTruthy cs.user_uuid <;>
      simp [get_json_update_posthog, hlc, hu]
  · intro cs
    simp [get_json_update_posthog]

end OpenBB
